import Mathlib

deriving instance DecidableEq for Except

/-!
Verification development for the librgb C-bindings crate
(src/librgb/src/internal.rs, external.rs, error.rs).

The pure protocol logic of each binding is embedded as executable Lean
definitions.  Machine integers are modelled as `Nat` with explicit bounds
(`< 2 ^ 64`, `< 2 ^ 32`) where the Rust code parses `u64` / `u32` values.
Rust strings are modelled as `String` at the API boundary and `List Char`
internally (Rust `split` is re-implemented character by character).
Fallible Rust code (`Result<_, RequestError>`) is modelled with `Except`.
Functions of external crates (bitcoin, lnpbp, rgb, rgb20, rgb_node) that
the bindings call are modelled from the specification; each such
definition carries a doc comment saying so.
-/

namespace RgbSdk

/-- Atomic asset amount, `rgb::AtomicValue` = `u64` in the source. -/
abbrev AtomicValue := Nat

/-- Upper bound of `u64` values. -/
def u64Bound : Nat := 2 ^ 64

/-- Upper bound of `u32` values. -/
def u32Bound : Nat := 2 ^ 32

/-- Bitcoin outpoint: transaction id (modelled as the 256-bit hash value,
a `Nat`) plus output index. -/
structure OutPoint where
  txid : Nat
  vout : Nat
  deriving DecidableEq, Repr

/-- Value of one hexadecimal digit character, `none` for a non-hex character. -/
def hexDigitVal (c : Char) : Option Nat :=
  if 48 ≤ c.toNat ∧ c.toNat ≤ 57 then some (c.toNat - 48)
  else if 97 ≤ c.toNat ∧ c.toNat ≤ 102 then some (c.toNat - 87)
  else if 65 ≤ c.toNat ∧ c.toNat ≤ 70 then some (c.toNat - 55)
  else none

/-- Value of a big-endian hex digit string; `none` if any character is not hex. -/
def hexValue (s : List Char) : Option Nat :=
  s.foldl
    (fun acc c =>
      match acc, hexDigitVal c with
      | some v, some d => some (v * 16 + d)
      | _, _ => none)
    (some 0)

/-- Value of one decimal digit character. -/
def decDigitVal (c : Char) : Option Nat :=
  if 48 ≤ c.toNat ∧ c.toNat ≤ 57 then some (c.toNat - 48) else none

/-- Value of a decimal digit string; `none` if empty or any character is not a digit. -/
def decValue : List Char → Option Nat
  | [] => none
  | l =>
    l.foldl
      (fun acc c =>
        match acc, decDigitVal c with
        | some v, some d => some (v * 10 + d)
        | _, _ => none)
      (some 0)

/-- Modelled from the spec: Rust `str::parse::<uN>` for unsigned integer types
(external standard library): an optional leading plus sign, then one or more
decimal digits, value required to fit the type bound. -/
def parseUInt (bound : Nat) (s : List Char) : Option Nat :=
  let digits := if s.headD (Char.ofNat 0) = Char.ofNat 43 then s.drop 1 else s
  match decValue digits with
  | none => none
  | some v => if v < bound then some v else none

/-- Rust `str::parse::<u64>` (used for `AtomicValue` amounts). -/
def parseU64 (s : List Char) : Option Nat :=
  parseUInt u64Bound s

/-- Rust `str::parse::<u32>` (used for outpoint indices). -/
def parseU32 (s : List Char) : Option Nat :=
  parseUInt u32Bound s

/-- Rust `str::split(sep)` re-implemented on character lists: splitting the
empty string yields `[[]]`, and every separator occurrence starts a new
(possibly empty) segment. -/
def splitOnChar (sep : Char) : List Char → List (List Char)
  | [] => [[]]
  | c :: rest =>
    let r := splitOnChar sep rest
    if c = sep then [] :: r
    else
      match r with
      | [] => [[c]]
      | h :: t => (c :: h) :: t

/-- Modelled from the spec: `lnpbp::seals::OutpointHash::from_str` (external
crate) parses a 64-character hexadecimal string into the 256-bit blinded-seal
commitment hash. -/
def outpointHashFromStr (s : List Char) : Option Nat :=
  if s.length = 64 then hexValue s else none

/-- The `rgb::SealEndpoint` type: either a concealed (blinded) UTXO commitment
or a vout of the witness transaction.  The bindings only construct the
concealed form (`hash.into()`). -/
inductive SealEndpoint where
  | concealedUtxo (hash : Nat)
  | witnessVout (vout : Nat) (blinding : Nat)
  deriving DecidableEq, Repr

/-- Revealed seal definition produced for change destinations
(`SealCoins::seal_definition()` in the external rgb20 crate): a concrete
outpoint, or a vout of the witness transaction.  The random blinding entropy
the external implementation attaches to the revealed seal is elided; it does
not affect which outpoint the seal is bound to. -/
inductive SealDefinition where
  | txOutpoint (txid : Nat) (vout : Nat)
  | witnessVout (vout : Nat)
  deriving DecidableEq, Repr

/-- The variants of `bitcoin::blockdata::transaction::ParseOutPointError`
used or producible through this crate. -/
inductive ParseOutPointError where
  | Format
  | TooLong
  | Txid
  | Vout
  deriving DecidableEq, Repr

/-- Modelled from the spec: the error taxonomy of the external runtime
(`rgb_node::i9n::Error`), whose failures the bindings must surface as
distinct delegate errors (conservation mismatch, unknown contract id, input
outpoint not controlled by the caller, invalid consignment, unmatched
reveal, and other runtime failures). -/
inductive IntegrationError where
  | conservationMismatch
  | unknownContract
  | uncontrolledInput
  | invalidConsignment
  | unmatchedReveal
  | other (code : Nat)
  deriving DecidableEq, Repr

/-- The crate error type `RequestError` (error.rs), restricted to the
variants reachable from the embedded operations.  Payload detail carried by
variants whose content no claim inspects is elided. -/
inductive RequestError where
  | Bech32
  | Json
  | Utf8
  | Outpoint (e : ParseOutPointError)
  | IoError
  | Input (msg : String)
  | Hex
  | ParseInt
  | ConsensusEncode
  | Integration (e : IntegrationError)
  deriving DecidableEq, Repr

/-- Insertion into an ordered map, with the replacement semantics of Rust
`BTreeMap::insert`: an existing binding of the key is replaced by the new
value; otherwise the new binding is added. -/
def mapInsert {α β : Type} [DecidableEq α] (k : α) (v : β) :
    List (α × β) → List (α × β)
  | [] => [(k, v)]
  | (k1, v1) :: rest =>
    if k = k1 then (k, v) :: rest else (k1, v1) :: mapInsert k v rest

/-- Parsing of one payment-obligation string in `_transfer`
(internal.rs:344-352): split on the at sign; exactly two parts are required,
the FIRST part is parsed as the blinded-seal hash (`OutpointHash::from_str`)
and the SECOND as the `u64` amount; any other number of parts yields the
`Input` error whose message announces the opposite order
(`expected <value>@<hash>`). -/
def parsePaymentItem (item : String) :
    Except RequestError (SealEndpoint × AtomicValue) :=
  match splitOnChar '@' item.data with
  | [p0, p1] =>
    match outpointHashFromStr p0 with
    | none => .error .Hex
    | some hash =>
      match parseU64 p1 with
      | none => .error .ParseInt
      | some v => .ok (SealEndpoint.concealedUtxo hash, v)
  | _ => .error (.Input ("Invalid payment format; expected <value>@<hash>"))

/-- The payment loop of `_transfer` (internal.rs:343-353): fold over the
payment strings, inserting each parsed (seal endpoint, amount) pair into the
`BTreeMap` accumulator; the first parse failure aborts the whole operation. -/
def processPayments :
    List String → List (SealEndpoint × AtomicValue) →
    Except RequestError (List (SealEndpoint × AtomicValue))
  | [], m => .ok m
  | item :: rest, m =>
    match parsePaymentItem item with
    | .error e => .error e
    | .ok (k, v) => processPayments rest (mapInsert k v m)

/-- Parsed form of the external `rgb20::SealCoins` record: amount, output
index, and optional transaction id (absent for a witness-transaction vout). -/
structure SealCoins where
  coins : AtomicValue
  vout : Nat
  txid : Option Nat
  deriving DecidableEq, Repr

/-- Distinct failure causes of the external `SealCoins` string parser. -/
inductive SealCoinsParseError where
  | noSeparator
  | badSeal
  | badCoins
  deriving DecidableEq, Repr

/-- Modelled from the spec: parsing of the seal part of a change destination,
an outpoint `txid:vout` whose txid may be empty (meaning a vout of the
witness transaction). -/
def sealPartFromStr (s : List Char) : Option (Option Nat × Nat) :=
  match splitOnChar ':' s with
  | [t, v] =>
    match parseU32 v with
    | none => none
    | some vout =>
      if t = [] then some (none, vout)
      else
        match outpointHashFromStr t with
        | none => none
        | some txid => some (some txid, vout)
  | _ => none

/-- Modelled from the spec: the external `rgb20::SealCoins` string parser for
change destinations, format `<outpoint>@<amount>`; each malformed input is
rejected with a parse error naming the failing part. -/
def sealCoinsFromStr (s : String) : Except SealCoinsParseError SealCoins :=
  match splitOnChar '@' s.data with
  | [o, c] =>
    match sealPartFromStr o with
    | none => .error .badSeal
    | some (txid, vout) =>
      match parseU64 c with
      | none => .error .badCoins
      | some coins => .ok ⟨coins, vout, txid⟩
  | _ => .error .noSeparator

/-- Conversion of parsed seal coins to the seal definition inserted into the
change map (`SealCoins::seal_definition()` of the external rgb20 crate,
blinding entropy elided). -/
def SealCoins.sealDefinition (sc : SealCoins) : SealDefinition :=
  match sc.txid with
  | some t => .txOutpoint t sc.vout
  | none => .witnessVout sc.vout

/-- The change loop body of `_transfer` (internal.rs:357-364): the
`SealCoins` parse result is inspected, and EVERY parse failure is replaced
by the fixed error `RequestError::Outpoint(ParseOutPointError::Format)`
(the `map_err` at internal.rs:359-361 discards the underlying error);
a successful parse inserts (seal definition, coins) into the change map. -/
def changeStep (m : List (SealDefinition × AtomicValue)) (item : String) :
    Except RequestError (List (SealDefinition × AtomicValue)) :=
  match sealCoinsFromStr item with
  | .error _ => .error (.Outpoint .Format)
  | .ok sc => .ok (mapInsert sc.sealDefinition sc.coins m)

/-- The change loop of `_transfer` (internal.rs:355-364). -/
def processChange :
    List String → List (SealDefinition × AtomicValue) →
    Except RequestError (List (SealDefinition × AtomicValue))
  | [], m => .ok m
  | item :: rest, m =>
    match changeStep m item with
    | .error e => .error e
    | .ok m1 => processChange rest m1

/-- State machine of the UTF-8 well-formedness check: the first argument is
the number of continuation bytes still expected, the next two are the
allowed range for the next byte of the current sequence.  At state 0 a new
sequence starts: ASCII bytes stand alone; leading bytes 0xC2-0xF4 open
multi-byte sequences with the usual restricted range for their first
continuation byte; everything else, in particular 0xC0, 0xC1 and
0xF5-0xFF, is invalid.  Continuation bytes after the first are always in
0x80-0xBF. -/
def utf8ValidAux : Nat → Nat → Nat → List Nat → Bool
  | 0, _, _, [] => true
  | _ + 1, _, _, [] => false
  | 0, _, _, b :: rest =>
    if b ≤ 127 then utf8ValidAux 0 0 0 rest
    else if 194 ≤ b ∧ b ≤ 223 then utf8ValidAux 1 128 191 rest
    else if b = 224 then utf8ValidAux 2 160 191 rest
    else if 225 ≤ b ∧ b ≤ 236 then utf8ValidAux 2 128 191 rest
    else if b = 237 then utf8ValidAux 2 128 159 rest
    else if 238 ≤ b ∧ b ≤ 239 then utf8ValidAux 2 128 191 rest
    else if b = 240 then utf8ValidAux 3 144 191 rest
    else if 241 ≤ b ∧ b ≤ 243 then utf8ValidAux 3 128 191 rest
    else if b = 244 then utf8ValidAux 3 128 143 rest
    else false
  | n + 1, lo, hi, b :: rest =>
    if lo ≤ b ∧ b ≤ hi then utf8ValidAux n 128 191 rest
    else false

/-- Validity of a byte sequence as UTF-8, as checked by Rust
`String::from_utf8`. -/
def utf8Valid (l : List Nat) : Bool :=
  utf8ValidAux 0 0 0 l

/-- The five magic bytes opening every PSBT consensus serialization:
the ASCII letters of psbt followed by the separator byte 0xFF. -/
def psbtMagic : List Nat := [112, 115, 98, 116, 255]

/-- Modelled from the spec: well-formedness of a byte string as the
consensus encoding of a PSBT (external bitcoin crate).  Every PSBT
serialization begins with the magic bytes `psbtMagic`; the remainder of the
grammar is external and elided, so the model accepts exactly the strings
with the magic prefix. -/
def psbtWellFormed (data : List Nat) : Bool :=
  decide (data.take 5 = psbtMagic)

/-- A partially signed transaction (`bitcoin PartiallySignedTransaction`),
identified with its consensus serialization (opaque bytes at this boundary
per the spec).  The serialization invariably bears the PSBT magic, so the
type carries that invariant: no value of this type serializes to a
magic-less byte string. -/
abbrev Psbt : Type :=
  { l : List Nat // psbtWellFormed l = true }

/-- Modelled from the spec: `PartiallySignedTransaction::consensus_decode`
(external bitcoin crate); a malformed encoding is a decode error, a
well-formed one yields the PSBT it denotes. -/
def consensusDecodePsbt (data : List Nat) : Except RequestError Psbt :=
  if h : psbtWellFormed data then .ok ⟨data, h⟩ else .error .ConsensusEncode

/-- Modelled from the spec: `consensus_encode` of a PSBT (external bitcoin
crate) — the consensus serialization the PSBT is identified with. -/
def consensusEncodePsbt (p : Psbt) : List Nat :=
  p.val

/-- The witness return path of `_transfer` (internal.rs:383-389): the
re-encoded witness bytes are passed through Rust `String::from_utf8`, which
returns the same bytes as a string when they are valid UTF-8 and fails with
a UTF-8 error otherwise. -/
def witnessOutput (data : List Nat) : Except RequestError (List Nat) :=
  if utf8Valid data then .ok data else .error .Utf8

/-- Modelled from the spec: `ContractId::from_str` (external rgb crate), a
bech32 parse of the contract identifier.  Only the possibility of failure
matters to the claims; the model requires the bech32 human-readable prefix
and elides the checksum grammar. -/
def contractIdFromStr (s : String) : Except RequestError String :=
  if s.data.take 4 = ("rgb1").data then .ok s else .error .Bech32

/-- Modelled from the spec: `bitcoin::OutPoint::from_str` (external crate),
format `txid:vout` with a 64-hex-digit txid and a `u32` vout (canonicality
details of the external parser elided). -/
def outPointFromStr (s : String) : Except RequestError OutPoint :=
  match splitOnChar ':' s.data with
  | [t, v] =>
    match outpointHashFromStr t with
    | none => .error (.Outpoint .Txid)
    | some txid =>
      match parseU32 v with
      | none => .error (.Outpoint .Vout)
      | some vout => .ok ⟨txid, vout⟩
  | _ => .error (.Outpoint .Format)

/-- A revealed outpoint with its blinding factor
(`lnpbp::seals::OutpointReveal`). -/
structure OutpointReveal where
  blinding : Nat
  txid : Nat
  vout : Nat
  deriving DecidableEq, Repr

/-- Modelled from the spec: `OutpointReveal::commit_conceal()` (external
lnpbp crate), the deterministic one-way commitment
`hash(outpoint, blinding factor)`.  The hash is modelled as an injective
pairing of the fields; collision resistance is outside the model. -/
def commitConceal (r : OutpointReveal) : Nat :=
  Nat.pair r.blinding (Nat.pair r.txid r.vout)

/-- Modelled from the spec: a consignment, the self-contained proof artifact
of one transfer.  The model keeps the data the embedded claims inspect: the
total value entering the transfer and the list of (blinded-seal commitment,
amount) allocations it delivers. -/
structure Consignment where
  inputTotal : Nat
  endpoints : List (Nat × Nat)
  deriving DecidableEq, Repr

/-- What the runtime hands back from a transfer: the consignment and the
finalized witness. -/
structure TransferReply where
  consignment : Consignment
  witness : Psbt
  deriving DecidableEq

/-- What `_transfer` returns to the caller (the JSON wrapping of the two
fields is elided; the witness field holds the bytes produced by the
`String::from_utf8` return path). -/
structure TransferOutput where
  consignment : Consignment
  witnessBytes : List Nat
  deriving DecidableEq, Repr

/-- Type of the external runtime transfer operation
(`rgb_node::i9n::Runtime::transfer`), an out-of-scope collaborator the
embedded `_transfer` is parameterized by. -/
def RuntimeTransfer : Type :=
  String → Finset OutPoint → List (SealEndpoint × AtomicValue) →
    List (SealDefinition × AtomicValue) → Psbt →
    Except IntegrationError TransferReply

/-- The transfer binding `_transfer` (internal.rs:326-392): parse the
contract id; collapse the JSON input list into a `BTreeSet`
(internal.rs:338-339); run the payment and change parsing loops; decode the
witness template; delegate to the runtime; and re-encode the resulting
witness through `String::from_utf8`.  Every stage failure aborts the whole
operation with the error of that stage. -/
def _transfer (rt : RuntimeTransfer) (contractId : String)
    (inputs : List OutPoint) (payment : List String) (change : List String)
    (witness : List Nat) : Except RequestError TransferOutput :=
  match contractIdFromStr contractId with
  | .error e => .error e
  | .ok cid =>
    let inputSet : Finset OutPoint := inputs.toFinset
    match processPayments payment [] with
    | .error e => .error e
    | .ok pay =>
      match processChange change [] with
      | .error e => .error e
      | .ok chg =>
        match consensusDecodePsbt witness with
        | .error e => .error e
        | .ok psbt =>
          match rt cid inputSet pay chg psbt with
          | .error e => .error (.Integration e)
          | .ok reply =>
            match witnessOutput (consensusEncodePsbt reply.witness) with
            | .error e => .error e
            | .ok wbytes => .ok ⟨reply.consignment, wbytes⟩

/-- The seal reference carried by an invoice (`rgb20::Outpoint`); the
binding only constructs the blinded form. -/
inductive InvoiceOutpoint where
  | blindedUtxo (hash : Nat)
  deriving DecidableEq, Repr

/-- The invoice record (`rgb20::Invoice`): contract id, blinded seal, and
the requested amount exactly as the `c_double` argument supplied it (a
floating-point value, modelled as the rational it denotes). -/
structure Invoice where
  contractId : String
  outpoint : InvoiceOutpoint
  amount : ℚ
  deriving DecidableEq, Repr

/-- What `_invoice` returns: the invoice and the secret blinding factor
(the JSON and bech32 text encodings are elided). -/
structure InvoiceResult where
  invoice : Invoice
  secret : Nat
  deriving DecidableEq, Repr

/-- The invoice binding `_invoice` (internal.rs:298-324): parse the contract
id and outpoint, blind the outpoint with the freshly drawn random blinding
factor (the RNG draw of `OutpointReveal::from` is modelled as the injected
`blinding` argument, per the spec design note on randomness as an injected
capability), and package contract id, blinded seal and the amount — which
is passed through unchanged, with no validation. -/
def _invoice (blinding : Nat) (assetId : String) (amount : ℚ)
    (outpoint : String) : Except RequestError InvoiceResult :=
  match contractIdFromStr assetId with
  | .error e => .error e
  | .ok cid =>
    match outPointFromStr outpoint with
    | .error e => .error e
    | .ok op =>
      let reveal : OutpointReveal := ⟨blinding, op.txid, op.vout⟩
      .ok ⟨⟨cid, .blindedUtxo (commitConceal reveal), amount⟩, reveal.blinding⟩

/-- The description-normalization step of `_issue` (internal.rs:172-181): a
null pointer yields no description; a non-null string yields no description
when empty and the string itself otherwise.  The null pointer is modelled
as `none`. -/
def issueDescription (description : Option String) : Option String :=
  match description with
  | none => none
  | some s => if s.data.isEmpty then none else some s

/-- Modelled from the spec: validation of a consignment by the external
runtime (read-only structural-consistency check).  The model checks the
conservation linkage of section 8: the allocations the consignment delivers
must account exactly for the value entering the transfer. -/
def validateConsignment (c : Consignment) : Bool :=
  decide ((c.endpoints.map Prod.snd).sum = c.inputTotal)

/-- An entry of the asset allocation ledger: an amount bound to a revealed
outpoint or still bound to a blinded commitment. -/
inductive Allocation where
  | revealed (op : OutPoint) (amount : AtomicValue)
  | blinded (hash : Nat) (amount : AtomicValue)
  deriving DecidableEq, Repr

/-- The reveal supplied for a given commitment hash, if any: the first
reveal whose recomputed commitment equals the hash. -/
def revealFor (reveals : List OutpointReveal) (hash : Nat) :
    Option OutpointReveal :=
  reveals.find? (fun r => commitConceal r = hash)

/-- Ledger entry produced for one consignment endpoint at acceptance: the
allocation becomes revealed when a matching reveal was supplied and stays
blinded otherwise. -/
def acceptAllocation (reveals : List OutpointReveal) (e : Nat × Nat) :
    Allocation :=
  match revealFor reveals e.1 with
  | some r => .revealed ⟨r.txid, r.vout⟩ e.2
  | none => .blinded e.1 e.2

/-- Modelled from the spec: the external runtime accept operation
(`Runtime::accept`), section 4.4: the consignment is (re-)validated — an
invalid consignment is rejected; each supplied reveal must match a
commitment referenced in the consignment (an unmatched reveal is a protocol
error); on success the allocation ledger is extended, all-or-nothing, with
the allocations of the consignment, revealed where a reveal matched. -/
def runtimeAccept (ledger : List Allocation) (c : Consignment)
    (reveals : List OutpointReveal) :
    Except IntegrationError (List Allocation) :=
  if validateConsignment c then
    if reveals.all (fun r => c.endpoints.any (fun e => e.1 = commitConceal r))
    then .ok (ledger ++ c.endpoints.map (acceptAllocation reveals))
    else .error .unmatchedReveal
  else .error .invalidConsignment

/-- The mutable runtime state visible to the embedded accept operation: the
asset allocation ledger. -/
structure NodeState where
  ledger : List Allocation
  deriving DecidableEq, Repr

/-- The accept binding `_accept` (internal.rs:411-434) as explicit state
passing: read the consignment file (a read failure, modelled as `none`, is
an I/O error), parse the reveal list from JSON (a parse failure, modelled
as `none`, is a JSON error), then delegate to the runtime accept; only a
successful delegation replaces the ledger. -/
def _accept (st : NodeState) (consignmentFile : Option Consignment)
    (revealsJson : Option (List OutpointReveal)) :
    Except RequestError Unit × NodeState :=
  match consignmentFile with
  | none => (.error .IoError, st)
  | some c =>
    match revealsJson with
    | none => (.error .Json, st)
    | some reveals =>
      match runtimeAccept st.ledger c reveals with
      | .error e => (.error (.Integration e), st)
      | .ok newLedger => (.ok (), ⟨newLedger⟩)

/-- States of the consignment life cycle (spec section 4.4). -/
inductive ConsStat where
  | received
  | validated
  | accepted
  | rejected
  deriving DecidableEq, Repr

/-- Modelled from the spec: the consignment state machine transitions of
section 4.4: `received → validated`, `received → rejected` (validation
failure), `validated → accepted`, `validated → rejected` (acceptance-time
mismatch). -/
inductive ConsStep : ConsStat → ConsStat → Prop where
  | validateOk : ConsStep .received .validated
  | validateFail : ConsStep .received .rejected
  | acceptOk : ConsStep .validated .accepted
  | acceptFail : ConsStep .validated .rejected

/-! Concrete material shared by the theorems below. -/

/-- A 64-character hexadecimal string (the all-zero 256-bit hash). -/
def zeros64 : String :=
  "0000000000000000000000000000000000000000000000000000000000000000"

/-- A concrete runtime transfer stub that always succeeds, returning an
empty consignment and echoing the decoded witness template back as the
finalized witness (whose serialization therefore bears the PSBT magic,
like every real witness). -/
def rtEcho : RuntimeTransfer :=
  fun _ _ _ _ psbt => .ok ⟨⟨0, []⟩, psbt⟩

/-- A concrete runtime transfer stub that always reports a value
conservation mismatch. -/
def rtConservationFail : RuntimeTransfer :=
  fun _ _ _ _ _ => .error .conservationMismatch

/-- The rational one half, written with an explicit constructor. -/
def halfQ : ℚ := ⟨1, 2, by decide, by decide⟩

/-- A UTF-8 byte string can never begin with the PSBT magic: the fifth
magic byte 0xFF is not a legal UTF-8 byte in any position. -/
theorem utf8Valid_psbtMagicBytes (r : List Nat) :
    utf8Valid (112 :: 115 :: 98 :: 116 :: 255 :: r) = false := by
  rfl

/-- Claim C1, counterexample: two payment entries (and two change entries)
with the same seal key are NOT rejected with a protocol-violation error:
the payment and change assembly of `_transfer` completes without error, the
amounts are not merged, and the later amount (50) silently replaces the
earlier (100) in the mapping. -/
theorem transfer_duplicate_seal_keys_not_rejected :
    processPayments [zeros64 ++ "@100", zeros64 ++ "@50"] [] =
      .ok [(SealEndpoint.concealedUtxo 0, 50)] ∧
    processChange [zeros64 ++ ":1@100", zeros64 ++ ":1@50"] [] =
      .ok [(SealDefinition.txOutpoint 0 1, 50)] := by
  decide

/-- Claim C1, amended: when a payment (resp. change) list contains two
entries whose parsed seal key is equal, the payment (resp. change) assembly
of `_transfer` raises no duplicate-key error: the `BTreeMap` insertion lets
the amount of the later entry replace the earlier one, and the two amounts
are never merged. -/
theorem transfer_duplicate_seal_key_last_wins
    (i1 i2 j1 j2 : String) (k : SealEndpoint) (a1 a2 : AtomicValue)
    (d : SealDefinition) (s1 s2 : SealCoins)
    (hp1 : parsePaymentItem i1 = .ok (k, a1))
    (hp2 : parsePaymentItem i2 = .ok (k, a2))
    (hc1 : sealCoinsFromStr j1 = .ok s1)
    (hc2 : sealCoinsFromStr j2 = .ok s2)
    (hd1 : s1.sealDefinition = d) (hd2 : s2.sealDefinition = d) :
    processPayments [i1, i2] [] = .ok [(k, a2)] ∧
    processChange [j1, j2] [] = .ok [(d, s2.coins)] := by
  constructor
  · simp only [processPayments, hp1, hp2]
    simp [mapInsert]
  · simp only [processChange, changeStep, hc1, hc2]
    simp only [hd1, hd2]
    simp [mapInsert]

/-- Claim C1, witness for the amended theorem at concrete duplicate payment
and change lists. -/
theorem transfer_duplicate_seal_key_last_wins_witness :
    processPayments [zeros64 ++ "@7", zeros64 ++ "@9"] [] =
      .ok [(SealEndpoint.concealedUtxo 0, 9)] ∧
    processChange [zeros64 ++ ":2@7", zeros64 ++ ":2@9"] [] =
      .ok [(SealDefinition.txOutpoint 0 2, 9)] :=
  transfer_duplicate_seal_key_last_wins
    (zeros64 ++ "@7") (zeros64 ++ "@9") (zeros64 ++ ":2@7")
    (zeros64 ++ ":2@9") (SealEndpoint.concealedUtxo 0) 7 9
    (SealDefinition.txOutpoint 0 2) ⟨7, 2, some 0⟩ ⟨9, 2, some 0⟩
    (by decide) (by decide) (by decide) (by decide) (by decide) (by decide)

/-- Claim C2: the payment parser of `_transfer` treats the part BEFORE the
at sign as the seal hash and the part AFTER it as the amount — the opposite
of the order `<amount>@<seal>` that the claim (and the error message itself) states: a
`<hash>@<amount>` string parses, an `<amount>@<hash>` string fails with a
hex error, and a string without exactly one at sign fails with the input
error. -/
theorem payment_parse_order_swapped :
    parsePaymentItem (zeros64 ++ "@100") =
      .ok (SealEndpoint.concealedUtxo 0, 100) ∧
    parsePaymentItem ("100@" ++ zeros64) = .error .Hex ∧
    parsePaymentItem ("100") =
      .error (.Input ("Invalid payment format; expected <value>@<hash>")) ∧
    parsePaymentItem ("1@2@3") =
      .error (.Input ("Invalid payment format; expected <value>@<hash>")) := by
  decide

/-- Claim C3: every witness that decodes successfully from its consensus
encoding is rejected on the way back to the caller: the re-encoded bytes
begin with the PSBT magic, whose fifth byte 0xFF is never valid UTF-8, so
the `String::from_utf8` return path fails with a UTF-8 error instead of
returning the bytes losslessly. -/
theorem decoded_witness_reencoding_never_utf8 (data : List Nat) (p : Psbt)
    (h : consensusDecodePsbt data = .ok p) :
    witnessOutput (consensusEncodePsbt p) = .error .Utf8 := by
  unfold consensusDecodePsbt at h
  by_cases hw : psbtWellFormed data
  · simp [hw] at h
    have hdata : data.take 5 = psbtMagic := of_decide_eq_true hw
    have hfalse : utf8Valid data = false := by
      have hsplit : data = data.take 5 ++ data.drop 5 :=
        (List.take_append_drop 5 data).symm
      rw [hdata] at hsplit
      have hmagic : utf8Valid (psbtMagic ++ data.drop 5) = false :=
        utf8Valid_psbtMagicBytes (data.drop 5)
      rw [hsplit]
      exact hmagic
    subst h
    simp [witnessOutput, consensusEncodePsbt, hfalse]
  · simp [hw] at h

/-- Claim C3, witness at the shortest well-formed witness encoding (the
bare PSBT magic). -/
theorem decoded_witness_reencoding_never_utf8_witness :
    consensusDecodePsbt psbtMagic = .ok ⟨psbtMagic, rfl⟩ ∧
    witnessOutput (consensusEncodePsbt ⟨psbtMagic, rfl⟩) = .error .Utf8 :=
  ⟨by decide,
   decoded_witness_reencoding_never_utf8 psbtMagic ⟨psbtMagic, rfl⟩
     (by decide)⟩

/-- Claim C4, counterexample: `_invoice` happily produces an invoice whose
requested amount is the negative value -1; the amount is not validated. -/
theorem invoice_negative_amount_produced :
    _invoice 7 ("rgb1a") (-1) (zeros64 ++ ":0") =
      .ok ⟨⟨"rgb1a", .blindedUtxo 56, -1⟩, 7⟩ := by
  decide

/-- Claim C4, amended: the requested amount — the `c_double` argument, a
floating-point value — is carried into the invoice unchanged, with no
non-negativity or integrality validation: every amount, negative or
fractional included, yields an invoice carrying exactly that amount. -/
theorem invoice_amount_passed_through (blinding : Nat)
    (assetId outpoint : String) (amount : ℚ) (cid : String) (op : OutPoint)
    (h1 : contractIdFromStr assetId = .ok cid)
    (h2 : outPointFromStr outpoint = .ok op) :
    _invoice blinding assetId amount outpoint =
      .ok ⟨⟨cid, .blindedUtxo (commitConceal ⟨blinding, op.txid, op.vout⟩),
        amount⟩, blinding⟩ := by
  simp [_invoice, h1, h2]

/-- Claim C4, witness for the amended theorem: a fractional amount (one
half) is passed through unchanged. -/
theorem invoice_amount_passed_through_witness :
    _invoice 7 ("rgb1a") halfQ (zeros64 ++ ":0") =
      .ok ⟨⟨"rgb1a",
        .blindedUtxo (commitConceal ⟨7, 0, 0⟩), halfQ⟩, 7⟩ :=
  invoice_amount_passed_through 7 ("rgb1a") (zeros64 ++ ":0") halfQ
    ("rgb1a") ⟨0, 0⟩ (by decide) (by decide)

/-- Claim C5, counterexample: two malformed change-destination strings with
DIFFERENT underlying parse errors (no separator at all, versus a malformed
amount after a well-formed outpoint) are both reported as the same fixed
outpoint-format error — the underlying parse error is discarded, not
surfaced. -/
theorem change_parse_error_masked :
    sealCoinsFromStr ("x") = .error .noSeparator ∧
    sealCoinsFromStr (zeros64 ++ ":0@zz") = .error .badCoins ∧
    changeStep [] ("x") = .error (.Outpoint .Format) ∧
    changeStep [] (zeros64 ++ ":0@zz") = .error (.Outpoint .Format) := by
  decide

/-- Claim C5, amended: a runtime-reported failure (conservation mismatch
included) is propagated to the caller unchanged, wrapped as the distinct
integration error — but a malformed change-destination string is always
reported as the fixed outpoint-format error, its underlying parse error
being discarded rather than surfaced. -/
theorem transfer_error_reporting_amended :
    (∀ (m : List (SealDefinition × AtomicValue)) (item : String)
       (e : SealCoinsParseError),
      sealCoinsFromStr item = .error e →
      changeStep m item = .error (.Outpoint .Format)) ∧
    (∀ (rt : RuntimeTransfer) (c : String) (inputs : List OutPoint)
       (p ch : List String) (w : List Nat) (cid : String)
       (pay : List (SealEndpoint × AtomicValue))
       (chg : List (SealDefinition × AtomicValue)) (psbt : Psbt)
       (er : IntegrationError),
      contractIdFromStr c = .ok cid →
      processPayments p [] = .ok pay →
      processChange ch [] = .ok chg →
      consensusDecodePsbt w = .ok psbt →
      rt cid inputs.toFinset pay chg psbt = .error er →
      _transfer rt c inputs p ch w = .error (.Integration er)) := by
  constructor
  · intro m item e he
    simp [changeStep, he]
  · intro rt c inputs p ch w cid pay chg psbt er h1 h2 h3 h4 h5
    simp only [_transfer, h1, h2, h3, h4, h5]

/-- Claim C5, witness for the amended theorem: a concrete malformed change
string is reported as the fixed outpoint-format error, and a concrete
runtime conservation mismatch is propagated unchanged. -/
theorem transfer_error_reporting_amended_witness :
    changeStep [] ("y") = .error (.Outpoint .Format) ∧
    _transfer rtConservationFail ("rgb1a") [] [] [] psbtMagic =
      .error (.Integration .conservationMismatch) :=
  ⟨transfer_error_reporting_amended.1 [] ("y") .noSeparator (by decide),
   transfer_error_reporting_amended.2 rtConservationFail ("rgb1a") [] [] []
     psbtMagic ("rgb1a") [] [] ⟨psbtMagic, rfl⟩ .conservationMismatch
     (by decide) (by decide) (by decide) (by decide) (by rfl)⟩

/-- Claim C6: an invalid consignment is never accepted — whatever reveal
data is supplied, `_accept` returns the invalid-consignment error and
leaves the ledger exactly as it was — and in the consignment state machine
the accepted state is entered only from the validated state. -/
theorem invalid_consignment_never_accepted :
    (∀ (st : NodeState) (c : Consignment) (reveals : List OutpointReveal),
      validateConsignment c = false →
      _accept st (some c) (some reveals) =
        (.error (.Integration .invalidConsignment), st)) ∧
    (∀ s : ConsStat, ConsStep s .accepted → s = .validated) := by
  constructor
  · intro st c reveals h
    simp [_accept, runtimeAccept, h]
  · intro s h
    cases h
    rfl

/-- Claim C6, witness: a concrete invalid consignment (it claims 5 input
units but delivers no allocations) is rejected with the ledger unchanged,
for arbitrary reveal data; the state-machine part applied at the accepted
transition. -/
theorem invalid_consignment_never_accepted_witness :
    validateConsignment ⟨5, []⟩ = false ∧
    _accept ⟨[]⟩ (some ⟨5, []⟩) (some []) =
      (.error (.Integration .invalidConsignment), ⟨[]⟩) ∧
    ConsStat.validated = ConsStat.validated :=
  ⟨by decide,
   invalid_consignment_never_accepted.1 ⟨[]⟩ ⟨5, []⟩ [] (by decide),
   invalid_consignment_never_accepted.2 .validated ConsStep.acceptOk⟩

/-- Claim C7: acceptance is atomic — whenever `_accept` returns an error,
whether from reading the consignment, parsing the reveal list, or the
delegated runtime acceptance, the resulting state is exactly the input
state: no subset of the consignment allocations is recorded. -/
theorem accept_is_atomic (st : NodeState) (f : Option Consignment)
    (r : Option (List OutpointReveal)) (e : RequestError)
    (h : (_accept st f r).1 = .error e) :
    (_accept st f r).2 = st := by
  cases f with
  | none => rfl
  | some c =>
    cases r with
    | none => rfl
    | some reveals =>
      simp only [_accept] at h ⊢
      cases hr : runtimeAccept st.ledger c reveals with
      | error e2 => simp [hr]
      | ok led =>
        rw [hr] at h
        exact absurd h (by simp)

/-- Claim C7, witness at a concrete failing call (unreadable consignment
file). -/
theorem accept_is_atomic_witness :
    (_accept ⟨[]⟩ none none).1 = .error .IoError ∧
    (_accept ⟨[]⟩ none none).2 = ⟨[]⟩ :=
  ⟨by decide, accept_is_atomic ⟨[]⟩ none none .IoError (by decide)⟩

/-- Claim C8: the blinded commitment is a deterministic function of the
outpoint and blinding factor — recomputing from equal fields reproduces the
identical commitment — and revealing `(o, b)` at accept time against a
valid consignment containing `commit(o, b)` always accepts that
allocation: acceptance succeeds and the new ledger holds the allocation,
revealed at that outpoint. -/
theorem blinding_round_trip :
    (∀ r1 r2 : OutpointReveal, r1.blinding = r2.blinding →
      r1.txid = r2.txid → r1.vout = r2.vout →
      commitConceal r1 = commitConceal r2) ∧
    (∀ (ledger : List Allocation) (c : Consignment) (r : OutpointReveal)
       (amt : AtomicValue),
      validateConsignment c = true →
      (commitConceal r, amt) ∈ c.endpoints →
      ∃ newLedger, runtimeAccept ledger c [r] = .ok newLedger ∧
        Allocation.revealed ⟨r.txid, r.vout⟩ amt ∈ newLedger) := by
  constructor
  · intro r1 r2 hb ht hv
    unfold commitConceal
    rw [hb, ht, hv]
  · intro ledger c r amt hval hmem
    have hmatch :
        ([r].all fun x => c.endpoints.any fun e => e.1 = commitConceal x) =
          true := by
      simp only [List.all_cons, List.all_nil, Bool.and_true]
      exact List.any_eq_true.mpr ⟨(commitConceal r, amt), hmem, by simp⟩
    refine ⟨ledger ++ c.endpoints.map (acceptAllocation [r]), ?_, ?_⟩
    · simp [runtimeAccept, hval, hmatch]
    · refine List.mem_append_right ledger (List.mem_map.mpr
        ⟨(commitConceal r, amt), hmem, ?_⟩)
      simp [acceptAllocation, revealFor, List.find?]

/-- Claim C8, witness: a concrete reveal (blinding 7, outpoint 3:1) whose
commitment 176 appears in a concrete valid consignment; acceptance succeeds
and the revealed allocation is in the new ledger. -/
theorem blinding_round_trip_witness :
    commitConceal ⟨7, 3, 1⟩ = commitConceal ⟨7, 3, 1⟩ ∧
    validateConsignment ⟨250, [(176, 250)]⟩ = true ∧
    ∃ led, runtimeAccept [] ⟨250, [(176, 250)]⟩ [⟨7, 3, 1⟩] = .ok led ∧
      Allocation.revealed ⟨3, 1⟩ 250 ∈ led :=
  ⟨blinding_round_trip.1 ⟨7, 3, 1⟩ ⟨7, 3, 1⟩ rfl rfl rfl, by decide,
   blinding_round_trip.2 [] ⟨250, [(176, 250)]⟩ ⟨7, 3, 1⟩ 250
     (by decide) (by decide)⟩

/-- Claim C9: in `_issue`, a null description pointer and a non-null empty
description string both yield an asset with no description, and every
non-empty description string is kept as is. -/
theorem issue_description_normalization :
    issueDescription none = none ∧
    issueDescription (some ("")) = none ∧
    ∀ s : String, s.data ≠ [] → issueDescription (some s) = some s := by
  refine ⟨rfl, rfl, ?_⟩
  intro s h
  simp [issueDescription, h]

/-- Claim C9, witness on a concrete non-empty description. -/
theorem issue_description_normalization_witness :
    issueDescription (some ("desc")) = some ("desc") :=
  issue_description_normalization.2.2 ("desc") (by decide)

/-- Claim C10: `_transfer` silently deduplicates its input outpoints: a
list containing an outpoint that already occurs later in it behaves
exactly like the list without the duplicate, with no error reported. -/
theorem transfer_inputs_deduplicated (rt : RuntimeTransfer) (c : String)
    (x : OutPoint) (l : List OutPoint) (p ch : List String) (w : List Nat)
    (h : x ∈ l) :
    _transfer rt c (x :: l) p ch w = _transfer rt c l p ch w := by
  have hf : (x :: l).toFinset = l.toFinset := by
    rw [List.toFinset_cons]
    exact Finset.insert_eq_self.mpr (List.mem_toFinset.mpr h)
  simp only [_transfer, hf]

/-- Claim C10, witness: a concrete duplicated input list behaves exactly
like the deduplicated one. -/
theorem transfer_inputs_deduplicated_witness :
    _transfer rtEcho ("rgb1a") [⟨0, 0⟩, ⟨0, 0⟩] [] [] psbtMagic =
      _transfer rtEcho ("rgb1a") [⟨0, 0⟩] [] [] psbtMagic :=
  transfer_inputs_deduplicated rtEcho ("rgb1a") ⟨0, 0⟩ [⟨0, 0⟩] [] []
    psbtMagic (by decide)

end RgbSdk
